import Mathlib

/-!
Shallow embedding of the k8s-cli task/volume orchestration engine
(reference implementation: src/k8s_cli/k8s_executor.py together with the
record types of src/k8s_cli/task_models.py).

Conventions of the embedding:
- Python dictionaries that are consulted with string keys are modelled as
  association lists of string pairs, looked up with List.lookup.
- Python truthiness tests on optional strings (None and the empty string
  are both falsy) are modelled by the helper strTruthy.
- The cluster is modelled as the list of currently existing objects of a
  kind; a server-side label-selector query is the filter of that list by
  labelMatches; deleting the objects returned by a query leaves exactly
  the objects that do not match.
- The random 8-character task id produced by uuid at submission time is
  modelled as an explicit parameter.
-/

namespace K8sCli

/-- Embedding of KubernetesTaskExecutor._sanitize_username (k8s_executor.py,
lines 22-30): username.replace with the single-character pattern at-sign
and replacement dash is exactly a character-wise map over the string. -/
def sanitizeUsername (s : String) : String :=
  String.mk (s.data.map (fun c => if c = '@' then '-' else c))

/-- Python truthiness of an optional string: None and the empty string are
falsy, every other string is truthy. -/
def strTruthy : Option String → Bool
  | none => false
  | some s => s != ""

/-- Record type mirroring the Resources model of task_models.py
(lines 6-16); every field is optional there. -/
structure Resources where
  cpus : Option String := none
  memory : Option String := none
  accelerators : Option String := none
  instance_type : Option String := none
  use_spot : Option Bool := none
  disk_size : Option Int := none
  ports : Option (List Int) := none
  image_id : Option String := none
deriving Repr, DecidableEq

/-- Record type mirroring the TaskDefinition model of task_models.py
(lines 19-30). Dictionary-valued fields (envs, file_mounts, volumes) are
association lists in insertion order; Python None and the empty dict are
both modelled as the empty list, which is faithful because the executor
only ever tests their truthiness and iterates them. The volumes field
maps a mount path to a volume name. -/
structure TaskDefinition where
  name : Option String := none
  workdir : Option String := none
  num_nodes : Nat := 1
  resources : Option Resources := none
  envs : List (String × String) := []
  file_mounts : List (String × String) := []
  volumes : List (String × String) := []
  setup : Option String := none
  run : String
deriving Repr, DecidableEq

/-- Embedding of KubernetesTaskExecutor._build_command (k8s_executor.py,
lines 354-369): a list of command strings is assembled (cd workdir when
workdir is truthy, then the setup script when truthy, then the run
script) and joined with the newline character. -/
def build_command (td : TaskDefinition) : String :=
  let cmds : List String :=
    (match td.workdir with
      | some w => if w != "" then ["cd " ++ w] else []
      | none => []) ++
    (match td.setup with
      | some s => if s != "" then [s] else []
      | none => []) ++
    [td.run]
  String.intercalate "\n" cmds

/-- Requests and limits of a container resource specification, each an
association list from resource key to quantity string, mirroring the dict
built by _build_resources. -/
structure ResourceSpec where
  requests : List (String × String)
  limits : List (String × String)
deriving Repr, DecidableEq

/-- Character-level rendering of the Python str.split with the single
colon character as separator: the input is cut at every colon, and the
empty input yields the one-element list holding the empty piece. -/
def splitOnColon : List Char → List (List Char)
  | [] => [[]]
  | c :: cs =>
    let rest := splitOnColon cs
    if c = ':' then [] :: rest
    else match rest with
      | [] => [[c]]
      | p :: ps => (c :: p) :: ps

/-- Text after the last colon of a string: Python parts = s.split(colon)
followed by parts[-1]. Every split yields at least one piece, so the
default of getLastD is never consulted. -/
def lastAfterColon (s : String) : String :=
  String.mk ((splitOnColon s.data).getLastD [])

/-- Embedding of KubernetesTaskExecutor._build_resources (k8s_executor.py,
lines 371-390). The function is total: it never raises. When the
accelerators string is truthy, the raw text after its last colon is
stored verbatim under the gpu limit key; no integer parsing or
validation happens. -/
def build_resources (r : Resources) : ResourceSpec :=
  let s0 : ResourceSpec := ⟨[], []⟩
  let s1 := match r.cpus with
    | some c => if c != "" then
        ResourceSpec.mk (s0.requests ++ [("cpu", c)]) (s0.limits ++ [("cpu", c)])
      else s0
    | none => s0
  let s2 := match r.memory with
    | some m => if m != "" then
        ResourceSpec.mk (s1.requests ++ [("memory", m)]) (s1.limits ++ [("memory", m)])
      else s1
    | none => s1
  match r.accelerators with
    | some a => if a != "" then
        ResourceSpec.mk s2.requests (s2.limits ++ [("nvidia.com/gpu", lastAfterColon a)])
      else s2
    | none => s2

/-- Cluster-reported status counters of one Job object. The Python code
reads them as status.get(key, 0), so an absent counter is the value 0 and
the fields can be plain naturals. -/
structure JobStatusCounters where
  succeeded : Nat := 0
  failed : Nat := 0
  active : Nat := 0
deriving Repr, DecidableEq

/-- One Job object as it exists in the cluster: its object name, its
metadata labels and its status counters. Only the parts read by the
executor are carried. -/
structure JobObj where
  name : String
  labels : List (String × String)
  counters : JobStatusCounters := {}
deriving Repr, DecidableEq

/-- A label selector is a conjunction of key=value terms; an object
matches when every term is satisfied by its label map (exact match). -/
def labelMatches (labels : List (String × String)) (selector : List (String × String)) : Bool :=
  selector.all (fun kv => labels.lookup kv.fst == some kv.snd)

/-- Selector used by stop_task, get_task_status and tail_logs
(k8s_executor.py, lines 158-162, 233-237, 528-534): task-id plus
sanitized username. -/
def taskIdSelector (taskId username : String) : List (String × String) :=
  [("task-id", taskId), ("username", sanitizeUsername username)]

/-- Selector used by stop_all_tasks and list_tasks (k8s_executor.py,
lines 177-181, 200-204): the task marker label, and the sanitized
username when an owner is given. -/
def taskLabelSelector (username : Option String) : List (String × String) :=
  match username with
  | some u => [("skypilot-task", "true"), ("username", sanitizeUsername u)]
  | none => [("skypilot-task", "true")]

/-- Jobs of the cluster matched by the task-id plus username selector. -/
def jobsMatchingTaskId (taskId username : String) (cluster : List JobObj) : List JobObj :=
  cluster.filter (fun j => labelMatches j.labels (taskIdSelector taskId username))

/-- Embedding of KubernetesTaskExecutor.stop_task (k8s_executor.py, lines
155-170): query jobs by task-id and sanitized username; when none match
return False without touching the cluster; otherwise delete every
matched job (the cluster keeps exactly the non-matching jobs) and return
True. The function is total: not-found is a return value, never an
exception. -/
def stop_task (taskId username : String) (cluster : List JobObj) : Bool × List JobObj :=
  let jobs := jobsMatchingTaskId taskId username cluster
  if jobs = [] then (false, cluster)
  else (true, cluster.filter (fun j => ! labelMatches j.labels (taskIdSelector taskId username)))

/-- Embedding of KubernetesTaskExecutor.stop_all_tasks (k8s_executor.py,
lines 172-196): query jobs by the owner-scoped task selector, delete
each matched job and count one per deleted job; the returned number is
the length of the matched job list. -/
def stop_all_tasks (username : Option String) (cluster : List JobObj) : Nat × List JobObj :=
  let sel := taskLabelSelector username
  let jobs := cluster.filter (fun j => labelMatches j.labels sel)
  (jobs.length, cluster.filter (fun j => ! labelMatches j.labels sel))

/-- Task id label of a job as read by list_tasks (k8s_executor.py, line
217): the task-id label with default "unknown". -/
def jobTaskId (j : JobObj) : String :=
  (j.labels.lookup "task-id").getD "unknown"

/-- Number of distinct tasks among the jobs matched by the owner-scoped
task selector: list_tasks (k8s_executor.py, lines 214-228) groups the
matched jobs by their task-id label and yields one TaskStatus per group,
so this is the number of tasks the matched jobs belong to. -/
def matchedDistinctTaskCount (username : Option String) (cluster : List JobObj) : Nat :=
  ((cluster.filter (fun j => labelMatches j.labels (taskLabelSelector username))).map
    jobTaskId).dedup.length

/-- Phases a unit can report, mutually exclusive by construction of
classifyUnit. -/
inductive UnitPhase where
  | succeeded
  | failed
  | running
  | pending
deriving Repr, DecidableEq

/-- Per-unit phase classification inside _aggregate_task_status
(k8s_executor.py, lines 267-276), evaluated in this fixed order:
succeeded when the succeeded counter is positive, else failed when the
failed counter is positive, else running when the active counter is
positive, else pending. -/
def classifyUnit (st : JobStatusCounters) : UnitPhase :=
  if st.succeeded > 0 then .succeeded
  else if st.failed > 0 then .failed
  else if st.active > 0 then .running
  else .pending

/-- Number of units of the list classified into a given phase: the loop
of _aggregate_task_status (k8s_executor.py, lines 261-276) increments
exactly one of the four counters per job, namely the one selected by
classifyUnit. -/
def phaseCount (p : UnitPhase) (sts : List JobStatusCounters) : Nat :=
  sts.countP (fun st => decide (classifyUnit st = p))

/-- Task-level status determination of _aggregate_task_status
(k8s_executor.py, lines 278-289), evaluated in order, first match wins:
completed when every unit succeeded, else failed when some unit failed,
else running when some unit is running, else pending. -/
def aggregateStatus (sts : List JobStatusCounters) : String :=
  if phaseCount .succeeded sts = sts.length then "completed"
  else if phaseCount .failed sts > 0 then "failed"
  else if phaseCount .running sts > 0 then "running"
  else "pending"

/-- Embedding of KubernetesTaskExecutor.get_task_status (k8s_executor.py,
lines 230-242), projected onto the aggregated status string: query jobs
by task-id and sanitized username, return None when none match, else the
aggregation over the matched jobs. Not-found is the value none, never an
exception. -/
def get_task_status (taskId username : String) (cluster : List JobObj) : Option String :=
  let jobs := jobsMatchingTaskId taskId username cluster
  if jobs = [] then none
  else some (aggregateStatus (jobs.map (fun j => j.counters)))

/-- One PersistentVolumeClaim object as it exists in the cluster. The
object name is read as raw.get("metadata").get("name", volume_name), so
it is carried as an optional field here, with the same default applied
at the read site. -/
structure PvcObj where
  name : Option String
  labels : List (String × String)
deriving Repr, DecidableEq

/-- Selector used by _resolve_pvc_name (k8s_executor.py, line 42): the
volume marker label, the volume-name label and the sanitized username. -/
def pvcSelector (volumeName su : String) : List (String × String) :=
  [("skypilot-volume", "true"), ("volume-name", volumeName), ("username", su)]

/-- Claims of the cluster matched by the volume-name plus username
selector of _resolve_pvc_name. -/
def pvcsMatching (volumeName su : String) (cluster : List PvcObj) : List PvcObj :=
  cluster.filter (fun p => labelMatches p.labels (pvcSelector volumeName su))

/-- Embedding of KubernetesTaskExecutor._resolve_pvc_name
(k8s_executor.py, lines 32-51): when some claim matches the selector,
the object name of the first match is returned (with volume_name as the
default of the metadata lookup); otherwise volume_name itself is assumed
to be the actual claim name. -/
def resolve_pvc_name (volumeName su : String) (cluster : List PvcObj) : String :=
  match pvcsMatching volumeName su cluster with
  | [] => volumeName
  | p :: _ => p.name.getD volumeName

/-- One Pod object as it exists in the cluster: its metadata labels (the
parts read by tail_logs). -/
structure PodObj where
  name : String
  labels : List (String × String)
deriving Repr, DecidableEq

/-- Outcome of a tail_logs call: the yielded line sequence and the number
of log-stream worker threads that were started. -/
structure TailLogsOutcome where
  lines : List String
  workersStarted : Nat
deriving Repr, DecidableEq

/-- Embedding of KubernetesTaskExecutor.tail_logs (k8s_executor.py,
lines 523-584): pods are queried by task-id and sanitized username; when
none match the generator returns at once, yielding nothing, before the
log queue or any worker thread exists. The concurrent fan-in over a
non-empty pod list (one worker per pod feeding one queue) is abstracted
by the merge parameter, since its interleaving is nondeterministic; the
zero-pod branch never consults it. -/
def tail_logs (taskId username : String) (cluster : List PodObj)
    (merge : List PodObj → TailLogsOutcome) : TailLogsOutcome :=
  let pods := cluster.filter (fun p => labelMatches p.labels (taskIdSelector taskId username))
  if pods = [] then ⟨[], 0⟩ else merge pods

/-- Metadata part of one created Job specification: the object name and
the metadata labels, as assembled by submit_task. -/
structure JobSpecMeta where
  name : String
  labels : List (String × String)
deriving Repr, DecidableEq

/-- Labels attached by submit_task to every created Job (k8s_executor.py,
lines 121-127). -/
def jobLabels (taskId taskName su : String) (nodeIdx : Nat) : List (String × String) :=
  [("skypilot-task", "true"),
   ("task-id", taskId),
   ("task-name", taskName),
   ("username", su),
   ("node-idx", toString nodeIdx)]

/-- Job object name chosen by submit_task (k8s_executor.py, line 114). -/
def jobName (taskName taskId : String) (numNodes nodeIdx : Nat) : String :=
  if numNodes = 1 then taskName ++ "-" ++ taskId
  else taskName ++ "-" ++ taskId ++ "-node-" ++ toString nodeIdx

/-- Embedding of the fan-out of KubernetesTaskExecutor.submit_task
(k8s_executor.py, lines 53-153), projected onto the created Job
metadata: one Job specification per node index in range num_nodes, with
the task name defaulting (by Python truthiness of the or-expression) to
task- followed by the task id. The uuid-generated task id is the taskId
parameter. -/
def submit_task_specs (td : TaskDefinition) (taskId username : String) : List JobSpecMeta :=
  let taskName := match td.name with
    | some n => if n != "" then n else "task-" ++ taskId
    | none => "task-" ++ taskId
  let su := sanitizeUsername username
  (List.range td.num_nodes).map (fun nodeIdx =>
    ⟨jobName taskName taskId td.num_nodes nodeIdx, jobLabels taskId taskName su nodeIdx⟩)


/-- Decimal value of a digit-character list, reading char codes relative
to the code of the zero digit; left inverse of the digit rendering used
by Nat.repr, used to prove that distinct node indices get distinct
node-idx label values. -/
def digitsVal (l : List Char) : Nat :=
  l.foldl (fun a ch => 10 * a + (ch.toNat - 48)) 0

/-- Sample scheduled unit: node 0 of a two-node task t1 owned by alice. -/
def aliceUnit0 : JobObj :=
  ⟨"train-t1-node-0",
   [("skypilot-task", "true"), ("task-id", "t1"), ("task-name", "train"),
    ("username", "alice"), ("node-idx", "0")], ⟨0, 0, 1⟩⟩

/-- Sample scheduled unit: node 1 of the same two-node task t1 of alice. -/
def aliceUnit1 : JobObj :=
  ⟨"train-t1-node-1",
   [("skypilot-task", "true"), ("task-id", "t1"), ("task-name", "train"),
    ("username", "alice"), ("node-idx", "1")], ⟨0, 0, 1⟩⟩

/-- Sample scheduled unit: the single unit of task t2 owned by bob. -/
def bobUnit : JobObj :=
  ⟨"serve-t2",
   [("skypilot-task", "true"), ("task-id", "t2"), ("task-name", "serve"),
    ("username", "bob"), ("node-idx", "0")], ⟨0, 0, 1⟩⟩

/-- Sample storage claim labelled with volume name data for owner alice;
its actual object name carries a generated suffix. -/
def alicePvc : PvcObj :=
  ⟨some "data-12ab34cd",
   [("skypilot-volume", "true"), ("volume-id", "12ab34cd"), ("volume-name", "data"),
    ("username", "alice")]⟩

/-- Sample pod belonging to task t2 of bob. -/
def bobPod : PodObj :=
  ⟨"serve-t2-pod", [("skypilot-task", "true"), ("task-id", "t2"), ("username", "bob"),
    ("node-idx", "0")]⟩

/-- Joining a one-element command list inserts no separator. -/
lemma intercalate_one (a : String) : String.intercalate "\n" [a] = a := rfl

/-- Joining a two-element command list inserts one newline. -/
lemma intercalate_two (a b : String) :
    String.intercalate "\n" [a, b] = a ++ "\n" ++ b := rfl

/-- Joining a three-element command list inserts two newlines. -/
lemma intercalate_three (a b c : String) :
    String.intercalate "\n" [a, b, c] = a ++ "\n" ++ b ++ "\n" ++ c := rfl

/-- Every unit is counted in a phase exactly when classifyUnit assigns it
that phase, so the full count equals the length exactly when every unit
has the phase. -/
lemma phaseCount_eq_length_iff (p : UnitPhase) (sts : List JobStatusCounters) :
    phaseCount p sts = sts.length ↔ ∀ st ∈ sts, classifyUnit st = p := by
  unfold phaseCount
  rw [List.countP_eq_length]
  simp

/-- A phase count is positive exactly when some unit is classified into
that phase. -/
lemma phaseCount_pos_iff (p : UnitPhase) (sts : List JobStatusCounters) :
    0 < phaseCount p sts ↔ ∃ st ∈ sts, classifyUnit st = p := by
  unfold phaseCount
  rw [List.countP_pos_iff]
  simp

/-- Characterization of the four outcomes of the aggregation if-chain in
terms of the phase counts it branches on. -/
lemma aggregateStatus_cases (sts : List JobStatusCounters) :
    (aggregateStatus sts = "completed" ↔ phaseCount .succeeded sts = sts.length) ∧
    (aggregateStatus sts = "failed" ↔
      ¬ phaseCount .succeeded sts = sts.length ∧ 0 < phaseCount .failed sts) ∧
    (aggregateStatus sts = "running" ↔
      ¬ phaseCount .succeeded sts = sts.length ∧ ¬ 0 < phaseCount .failed sts ∧
        0 < phaseCount .running sts) ∧
    (aggregateStatus sts = "pending" ↔
      ¬ phaseCount .succeeded sts = sts.length ∧ ¬ 0 < phaseCount .failed sts ∧
        ¬ 0 < phaseCount .running sts) := by
  unfold aggregateStatus
  by_cases h1 : phaseCount .succeeded sts = sts.length <;>
    by_cases h2 : 0 < phaseCount .failed sts <;>
      by_cases h3 : 0 < phaseCount .running sts <;>
        simp [h1, h2, h3]

/-- Appending one character multiplies the accumulated decimal value by
ten and adds the value of the appended digit. -/
lemma digitsVal_append (l : List Char) (c : Char) :
    digitsVal (l ++ [c]) = 10 * digitsVal l + (c.toNat - 48) := by
  unfold digitsVal
  rw [List.foldl_append]
  rfl

/-- Decimal value of a single digit character. -/
lemma digitsVal_singleton (c : Char) : digitsVal [c] = c.toNat - 48 := by
  simp [digitsVal]

/-- The accumulator of the digit-rendering loop of Nat.repr is appended
on the right of the rendered digits. -/
lemma toDigitsCore_append (b f : Nat) : ∀ (n : Nat) (ds : List Char),
    Nat.toDigitsCore b f n ds = Nat.toDigitsCore b f n [] ++ ds := by
  induction f with
  | zero => intro n ds; simp [Nat.toDigitsCore]
  | succ f ih =>
    intro n ds
    simp only [Nat.toDigitsCore]
    by_cases h : n / b = 0
    · simp [h]
    · simp only [h, if_false]
      rw [ih (n / b) (Nat.digitChar (n % b) :: ds), ih (n / b) [Nat.digitChar (n % b)]]
      simp

/-- Character code of a decimal digit character, relative to zero. -/
lemma digitChar_toNat (k : Nat) (hk : k < 10) : (Nat.digitChar k).toNat = 48 + k := by
  interval_cases k <;> rfl

/-- With enough fuel, the decimal rendering of a natural decodes back to
the same natural: digitsVal is a left inverse of the digit loop. -/
lemma toDigitsCore_val : ∀ (f n : Nat), n < f →
    digitsVal (Nat.toDigitsCore 10 f n []) = n := by
  intro f
  induction f with
  | zero => intro n h; omega
  | succ f ih =>
    intro n h
    simp only [Nat.toDigitsCore]
    by_cases h0 : n / 10 = 0
    · have hlt : n < 10 := by
        rwa [Nat.div_eq_zero_iff (by omega)] at h0
      rw [if_pos h0, digitsVal_singleton, digitChar_toNat (n % 10) (Nat.mod_lt n (by omega))]
      omega
    · rw [if_neg h0, toDigitsCore_append, digitsVal_append]
      have hdiv : n / 10 < f := by
        have hpos : 0 < n := by
          rcases Nat.eq_zero_or_pos n with h1 | h1
          · subst h1; simp at h0
          · exact h1
        have h2 := Nat.div_lt_self hpos (by omega : 1 < 10)
        omega
      rw [ih (n / 10) hdiv, digitChar_toNat (n % 10) (Nat.mod_lt n (by omega))]
      omega

/-- Decimal rendering of naturals is injective. -/
lemma natRepr_injective : Function.Injective Nat.repr := by
  intro m n h
  have hm : digitsVal (Nat.toDigits 10 m) = m := toDigitsCore_val (m + 1) m (Nat.lt_succ_self m)
  have hn : digitsVal (Nat.toDigits 10 n) = n := toDigitsCore_val (n + 1) n (Nat.lt_succ_self n)
  have hdata : Nat.toDigits 10 m = Nat.toDigits 10 n := congrArg String.data h
  rw [← hm, ← hn, hdata]

/-- The toString rendering of naturals, used for the node-idx label
value, is injective. -/
lemma toString_nat_injective : Function.Injective (fun n : Nat => toString n) :=
  natRepr_injective

/-- C1: the claim says StopAll(owner) returns the number of distinct
stopped tasks (groups of units sharing one task-id), as does the
docstring of stop_all_tasks. The code counts one per deleted Job object,
that is per scheduled unit. On a cluster where alice owns one two-node
task t1 and bob owns a one-node task t2, StopAll(alice) deletes both
units of the single task t1 and returns 2, while the matched units form
exactly 1 distinct task; the unit of bob survives. -/
theorem stop_all_tasks_returns_unit_count :
    (stop_all_tasks (some "alice") [aliceUnit0, aliceUnit1, bobUnit]).fst = 2 ∧
    matchedDistinctTaskCount (some "alice") [aliceUnit0, aliceUnit1, bobUnit] = 1 ∧
    (stop_all_tasks (some "alice") [aliceUnit0, aliceUnit1, bobUnit]).snd = [bobUnit] := by
  decide

/-- C2: for every non-empty list of unit states, the aggregated task
status follows the stated precedence, first match wins: completed iff
every unit succeeded; else failed iff some unit failed; else running iff
some unit is running; else pending. The four concrete rows of the claim
are included: phases failed+succeeded give failed, running+pending give
running, succeeded+succeeded give completed, pending+pending give
pending. -/
theorem aggregate_status_precedence (sts : List JobStatusCounters) (_hne : sts ≠ []) :
    (aggregateStatus sts = "completed" ↔ ∀ st ∈ sts, classifyUnit st = .succeeded) ∧
    (aggregateStatus sts = "failed" ↔
      ¬ (∀ st ∈ sts, classifyUnit st = .succeeded) ∧ ∃ st ∈ sts, classifyUnit st = .failed) ∧
    (aggregateStatus sts = "running" ↔
      ¬ (∀ st ∈ sts, classifyUnit st = .succeeded) ∧
      ¬ (∃ st ∈ sts, classifyUnit st = .failed) ∧ ∃ st ∈ sts, classifyUnit st = .running) ∧
    (aggregateStatus sts = "pending" ↔
      ¬ (∀ st ∈ sts, classifyUnit st = .succeeded) ∧
      ¬ (∃ st ∈ sts, classifyUnit st = .failed) ∧
      ¬ (∃ st ∈ sts, classifyUnit st = .running)) ∧
    aggregateStatus [⟨0, 1, 0⟩, ⟨1, 0, 0⟩] = "failed" ∧
    aggregateStatus [⟨0, 0, 1⟩, ⟨0, 0, 0⟩] = "running" ∧
    aggregateStatus [⟨1, 0, 0⟩, ⟨1, 0, 0⟩] = "completed" ∧
    aggregateStatus [⟨0, 0, 0⟩, ⟨0, 0, 0⟩] = "pending" := by
  obtain ⟨hc, hf, hr, hp⟩ := aggregateStatus_cases sts
  refine ⟨?_, ?_, ?_, ?_, by decide, by decide, by decide, by decide⟩
  · rw [hc, phaseCount_eq_length_iff]
  · rw [hf]
    simp only [phaseCount_eq_length_iff, phaseCount_pos_iff]
  · rw [hr]
    simp only [phaseCount_eq_length_iff, phaseCount_pos_iff]
  · rw [hp]
    simp only [phaseCount_eq_length_iff, phaseCount_pos_iff]

/-- Witness for C2 at the one-element succeeded list. -/
theorem aggregate_status_precedence_witness :
    aggregateStatus [⟨1, 0, 0⟩] = "completed" := by
  have h := aggregate_status_precedence [⟨1, 0, 0⟩] (by decide)
  exact h.1.mpr (by decide)

/-- C3: submission with num_nodes = N generates exactly N scheduled-unit
specifications, all labelled with the submission task id, whose node-idx
label values are exactly the renderings of 0..N-1 in order and therefore
pairwise distinct. -/
theorem submit_task_fanout (td : TaskDefinition) (taskId username : String) (N : Nat)
    (hN : td.num_nodes = N) (hpos : 1 ≤ N) :
    (submit_task_specs td taskId username).length = N ∧
    (∀ s ∈ submit_task_specs td taskId username,
      s.labels.lookup "task-id" = some taskId) ∧
    (submit_task_specs td taskId username).map (fun s => s.labels.lookup "node-idx") =
      (List.range N).map (fun i => some (toString i)) ∧
    ((submit_task_specs td taskId username).map
      (fun s => s.labels.lookup "node-idx")).Nodup := by
  subst hN
  refine ⟨by simp [submit_task_specs], ?_, ?_, ?_⟩
  · intro s hs
    simp only [submit_task_specs, List.mem_map, List.mem_range] at hs
    obtain ⟨i, _, rfl⟩ := hs
    rfl
  · simp only [submit_task_specs, List.map_map]
    rfl
  · have hmap : (submit_task_specs td taskId username).map
        (fun s => s.labels.lookup "node-idx") =
        (List.range td.num_nodes).map (fun i => some (toString i)) := by
      simp only [submit_task_specs, List.map_map]
      rfl
    rw [hmap]
    exact (List.nodup_range td.num_nodes).map
      (fun i j hij => toString_nat_injective (Option.some_injective _ hij))

/-- Witness for C3 at a concrete two-node task definition. -/
theorem submit_task_fanout_witness :
    (submit_task_specs { num_nodes := 2, run := "python t.py" } "ab12cd34" "a@b").length = 2 := by
  have h := submit_task_fanout { num_nodes := 2, run := "python t.py" } "ab12cd34" "a@b" 2 rfl
    (by decide)
  exact h.1

/-- C4 counterexample: the claim says a malformed accelerator string
(text after the last colon not an integer) makes spec building fail and
aborts the submission. The code never parses that text as an integer:
on the malformed input V100:abc, building returns normally and stores
the raw text abc verbatim under the gpu limit key. -/
theorem build_resources_malformed_not_rejected :
    build_resources { accelerators := some "V100:abc" } =
      ⟨[], [("nvidia.com/gpu", "abc")]⟩ := by decide

/-- C4 amended: spec building never fails on the accelerator string; for
every truthy accelerators value the text after its last colon, whatever
it is, is copied verbatim as the accelerator-count limit, appended to
the limits built from the other resource fields. -/
theorem build_resources_accel_verbatim (r : Resources) (a : String)
    (ha : r.accelerators = some a) (ha0 : a ≠ "") :
    build_resources r =
      ⟨(build_resources { r with accelerators := none }).requests,
        (build_resources { r with accelerators := none }).limits ++
          [("nvidia.com/gpu", lastAfterColon a)]⟩ := by
  obtain ⟨c, m, acc, it, us, ds, po, im⟩ := r
  obtain rfl : acc = some a := ha
  simp [build_resources, ha0]

/-- Witness for the amended C4 at the well-formed accelerator spec
V100:2. -/
theorem build_resources_accel_verbatim_witness :
    build_resources { accelerators := some "V100:2" } =
      ⟨[], [("nvidia.com/gpu", "2")]⟩ := by
  have h := build_resources_accel_verbatim { accelerators := some "V100:2" } "V100:2" rfl (by decide)
  simpa using h

/-- C5: the runnable command is the newline-joined concatenation of the
cd line when workdir is set, then the setup script when set, then the
run script, in that order, over all four presence combinations. -/
theorem build_command_composition (td : TaskDefinition) :
    (strTruthy td.workdir = false → strTruthy td.setup = false →
      build_command td = td.run) ∧
    (∀ w, td.workdir = some w → w ≠ "" → strTruthy td.setup = false →
      build_command td = "cd " ++ w ++ "\n" ++ td.run) ∧
    (∀ s, strTruthy td.workdir = false → td.setup = some s → s ≠ "" →
      build_command td = s ++ "\n" ++ td.run) ∧
    (∀ w s, td.workdir = some w → w ≠ "" → td.setup = some s → s ≠ "" →
      build_command td = "cd " ++ w ++ "\n" ++ s ++ "\n" ++ td.run) := by
  refine ⟨?_, ?_, ?_, ?_⟩
  · intro hw hs
    unfold build_command
    cases hw1 : td.workdir with
    | none =>
      cases hs1 : td.setup with
      | none => rfl
      | some s =>
        rw [hs1] at hs
        simp only [strTruthy] at hs
        simp [hs, intercalate_one]
    | some w =>
      rw [hw1] at hw
      simp only [strTruthy] at hw
      cases hs1 : td.setup with
      | none => simp [hw, intercalate_one]
      | some s =>
        rw [hs1] at hs
        simp only [strTruthy] at hs
        simp [hw, hs, intercalate_one]
  · intro w hw hw0 hs
    unfold build_command
    rw [hw]
    have hwt : (w != "") = true := bne_iff_ne.mpr hw0
    cases hs1 : td.setup with
    | none => simp [hwt, intercalate_two]
    | some s =>
      rw [hs1] at hs
      simp only [strTruthy] at hs
      simp [hwt, hs, intercalate_two]
  · intro s hw hs hs0
    unfold build_command
    rw [hs]
    have hst : (s != "") = true := bne_iff_ne.mpr hs0
    cases hw1 : td.workdir with
    | none => simp [hst, intercalate_two]
    | some w =>
      rw [hw1] at hw
      simp only [strTruthy] at hw
      simp [hw, hst, intercalate_two]
  · intro w s hw hw0 hs hs0
    unfold build_command
    rw [hw, hs]
    have hwt : (w != "") = true := bne_iff_ne.mpr hw0
    have hst : (s != "") = true := bne_iff_ne.mpr hs0
    simp [hwt, hst, intercalate_three]

/-- Witness for C5 with both workdir and setup present. -/
theorem build_command_composition_witness :
    build_command ⟨none, some "/w", 1, none, [], [], [], some "make deps", "make run"⟩ =
      "cd /w" ++ "\n" ++ "make deps" ++ "\n" ++ "make run" := by
  have h := build_command_composition ⟨none, some "/w", 1, none, [], [], [], some "make deps", "make run"⟩
  exact h.2.2.2 "/w" "make deps" rfl (by decide) rfl (by decide)

/-- C6: identity sanitization is idempotent: applying it twice equals
applying it once, for every identity string. -/
theorem sanitize_username_idempotent (x : String) :
    sanitizeUsername (sanitizeUsername x) = sanitizeUsername x := by
  unfold sanitizeUsername
  simp only [List.map_map]
  congr 1
  apply List.map_congr_left
  intro c _
  by_cases hc : c = '@' <;> simp [Function.comp, hc]

/-- C7: mount resolution returns the object name of the first storage
claim matched by the volume-name plus owner selector when one exists,
and the volume name unchanged when no claim matches. -/
theorem resolve_pvc_name_resolution (vn su : String) (cluster : List PvcObj) :
    (pvcsMatching vn su cluster = [] → resolve_pvc_name vn su cluster = vn) ∧
    (∀ p rest n, pvcsMatching vn su cluster = p :: rest → p.name = some n →
      resolve_pvc_name vn su cluster = n) := by
  constructor
  · intro h
    simp [resolve_pvc_name, h]
  · intro p rest n h hn
    simp [resolve_pvc_name, h, hn]

/-- Witness for C7: the labelled claim of alice resolves to its real
object name, and an owner without a matching claim falls back to the
literal volume name. -/
theorem resolve_pvc_name_resolution_witness :
    resolve_pvc_name "data" "alice" [alicePvc] = "data-12ab34cd" ∧
    resolve_pvc_name "data" "bob" [alicePvc] = "data" := by
  constructor
  · exact (resolve_pvc_name_resolution "data" "alice" [alicePvc]).2 alicePvc []
      "data-12ab34cd" (by decide) rfl
  · exact (resolve_pvc_name_resolution "data" "bob" [alicePvc]).1 (by decide)

/-- C8: Stop returns false exactly when zero units match the task-id
plus sanitized-owner query, and then deletes nothing; when it returns
true every matching unit is deleted and every non-matching unit
survives; GetTaskStatus returns none exactly when zero units match.
Both functions are total in the embedding: not-found is a value, never
an exception. -/
theorem stop_and_status_not_found (taskId username : String) (cluster : List JobObj) :
    ((stop_task taskId username cluster).fst = false ↔
      jobsMatchingTaskId taskId username cluster = []) ∧
    ((stop_task taskId username cluster).fst = false →
      (stop_task taskId username cluster).snd = cluster) ∧
    ((stop_task taskId username cluster).fst = true →
      ∀ j ∈ cluster,
        (labelMatches j.labels (taskIdSelector taskId username) = true →
          j ∉ (stop_task taskId username cluster).snd) ∧
        (labelMatches j.labels (taskIdSelector taskId username) = false →
          j ∈ (stop_task taskId username cluster).snd)) ∧
    (get_task_status taskId username cluster = none ↔
      jobsMatchingTaskId taskId username cluster = []) := by
  by_cases h : jobsMatchingTaskId taskId username cluster = []
  · refine ⟨by simp [stop_task, h], fun _ => by simp [stop_task, h], ?_,
      by simp [get_task_status, h]⟩
    intro hfst
    simp [stop_task, h] at hfst
  · refine ⟨by simp [stop_task, h], ?_, ?_, by simp [get_task_status, h]⟩
    · intro hfst
      simp [stop_task, h] at hfst
    · intro _ j hj
      constructor
      · intro hm
        simp only [stop_task, if_neg h]
        simp [List.mem_filter, hm]
      · intro hm
        simp only [stop_task, if_neg h]
        simp [List.mem_filter, hj, hm]

/-- Witness for C8 at a task id that no unit of the cluster carries. -/
theorem stop_and_status_not_found_witness :
    (stop_task "t9" "alice" [aliceUnit0]).fst = false ∧
    (stop_task "t9" "alice" [aliceUnit0]).snd = [aliceUnit0] ∧
    get_task_status "t9" "alice" [aliceUnit0] = none := by
  have h := stop_and_status_not_found "t9" "alice" [aliceUnit0]
  have hempty : jobsMatchingTaskId "t9" "alice" [aliceUnit0] = [] := by decide
  exact ⟨h.1.mpr hempty, h.2.1 (h.1.mpr hempty), h.2.2.2.mpr hempty⟩

/-- C9: when the pod query of a task matches zero pods, tail_logs yields
the empty line sequence and returns at once, without error and without
starting any log-stream worker, whatever the fan-in over non-empty pod
lists would produce. -/
theorem tail_logs_zero_pods (taskId username : String) (cluster : List PodObj)
    (merge : List PodObj → TailLogsOutcome)
    (h : cluster.filter
      (fun p => labelMatches p.labels (taskIdSelector taskId username)) = []) :
    tail_logs taskId username cluster merge = ⟨[], 0⟩ := by
  simp [tail_logs, h]

/-- Witness for C9: a cluster holding only a pod of another task and
owner yields the empty outcome, even under a merge that would emit
lines. -/
theorem tail_logs_zero_pods_witness :
    tail_logs "t1" "alice" [bobPod] (fun pods => ⟨["line"], pods.length⟩) = ⟨[], 0⟩ :=
  tail_logs_zero_pods "t1" "alice" [bobPod] (fun pods => ⟨["line"], pods.length⟩) (by decide)

/-- C10: per-unit classification checks the succeeded counter first, so
a unit whose cluster state reports both a positive completion counter
and a positive failure counter is classified succeeded, adds one to the
succeeded count of any unit list it heads and leaves the failed count
unchanged: the evaluation order makes the four phases mutually
exclusive even when the underlying counters overlap. -/
theorem classify_unit_order (st : JobStatusCounters)
    (h1 : 0 < st.succeeded) (_h2 : 0 < st.failed) :
    classifyUnit st = .succeeded ∧
    ∀ sts : List JobStatusCounters,
      phaseCount .succeeded (st :: sts) = phaseCount .succeeded sts + 1 ∧
      phaseCount .failed (st :: sts) = phaseCount .failed sts := by
  have hcl : classifyUnit st = .succeeded := by
    simp [classifyUnit, h1]
  refine ⟨hcl, fun sts => ⟨?_, ?_⟩⟩
  · unfold phaseCount
    rw [List.countP_cons_of_pos]
    simp [hcl]
  · unfold phaseCount
    rw [List.countP_cons_of_neg]
    simp [hcl]

/-- Witness for C10 at a unit state with both counters positive. -/
theorem classify_unit_order_witness :
    classifyUnit ⟨1, 1, 0⟩ = .succeeded ∧
    phaseCount .succeeded [⟨1, 1, 0⟩] = phaseCount .succeeded [] + 1 ∧
    phaseCount .failed [⟨1, 1, 0⟩] = phaseCount .failed [] := by
  have h := classify_unit_order ⟨1, 1, 0⟩ (by decide) (by decide)
  exact ⟨h.1, (h.2 []).1, (h.2 []).2⟩

end K8sCli
